import Mathlib

/-!
Verification development for the `card_identifier` repository.

The Python sources are shallowly embedded below:
* `src/src/utils.py` — `CardMatcher` (ORB feature matching, scoring, ranking,
  reference-card loading);
* `src/src/cv_detector.py` — `CVCardDetector` (geometric card-region detection);
* `src/src/camera_analyzer.py` — `CameraAnalyzer` (live pipeline: single-slot
  hand-off queue and the capture loop's shutdown path).

Machine integers are modelled as `ℕ`/`ℤ`, Python floats arising from integer
Hamming distances as `ℚ` (all arithmetic performed on them in the repository is
exact on rationals; `ℚ` division by zero is `0`, a corner unreachable in the
code paths verified here).  OpenCV calls (`detectAndCompute`, `BFMatcher.match`,
`findContours`, `minAreaRect`) are embedded by their documented semantics on
abstract descriptor/contour data.
-/

namespace CardIdentifier

/-! ### Descriptors and Hamming distance

ORB descriptors are binary strings; `cv2.BFMatcher(cv2.NORM_HAMMING, ...)`
compares them by Hamming distance. -/

/-- A binary feature descriptor (one row of the descriptor matrix). -/
abbrev Desc := List Bool

/-- Hamming distance between two equal-length binary descriptors
(`cv2.NORM_HAMMING`). -/
def hamming (a b : Desc) : ℕ :=
  ((List.zipWith (fun x y => x != y) a b).count true)

/-- One `cv2.DMatch`: indices of the paired query/train descriptors and their
distance. -/
structure DMatch where
  queryIdx : ℕ
  trainIdx : ℕ
  distance : ℕ
deriving DecidableEq, Repr

/-- Index and distance of the nearest descriptor of `ds` to `d` (first minimum
on ties), `none` on an empty train set — the nearest-neighbour search performed
by `BFMatcher.match`. -/
def bestMatch (d : Desc) (ds : List Desc) : Option (ℕ × ℕ) :=
  (ds.enum.map (fun p => (p.1, hamming d p.2))).foldl
    (fun acc p =>
      match acc with
      | none => some p
      | some q => if p.2 < q.2 then some p else some q)
    none

/-- `cv2.BFMatcher(cv2.NORM_HAMMING, crossCheck=True).match qds tds`:
a pair `(i, j)` is kept only when `j` is the nearest train descriptor to query
`i` and `i` is the nearest query descriptor to train `j` (mutual nearest
neighbours). -/
def crossMatches (qds tds : List Desc) : List DMatch :=
  qds.enum.filterMap (fun p =>
    match bestMatch p.2 tds with
    | none => none
    | some (j, dist) =>
      match tds[j]? with
      | none => none
      | some t =>
        match bestMatch t qds with
        | none => none
        | some (i2, _) => if i2 = p.1 then some ⟨p.1, j, dist⟩ else none)

/-! ### Sorting relations

Python's `sorted` is a stable sort; `List.insertionSort` with the relations
below is stable in the same way (earlier elements precede later ones among
equal keys). -/

/-- Ascending match distance: `sorted(matches, key=lambda x: x.distance)`. -/
def distAsc (m1 m2 : DMatch) : Prop := m1.distance ≤ m2.distance

instance : DecidableRel distAsc := fun m1 m2 =>
  inferInstanceAs (Decidable (m1.distance ≤ m2.distance))

instance : IsTotal DMatch distAsc := ⟨fun m1 m2 => Nat.le_total m1.distance m2.distance⟩

instance : IsTrans DMatch distAsc := ⟨fun _ _ _ h1 h2 => le_trans h1 h2⟩

/-- Descending score: `sorted(matches_list, key=lambda x: x[1], reverse=True)`. -/
def scoreDesc (a b : String × ℚ) : Prop := b.2 ≤ a.2

instance : DecidableRel scoreDesc := fun a b =>
  inferInstanceAs (Decidable (b.2 ≤ a.2))

instance : IsTotal (String × ℚ) scoreDesc := ⟨fun a b => le_total b.2 a.2⟩

instance : IsTrans (String × ℚ) scoreDesc := ⟨fun _ _ _ h1 h2 => le_trans h2 h1⟩

/-! ### CardMatcher (src/src/utils.py) -/

/-- One loaded reference card: the entry stored in
`CardMatcher.reference_cards` (image and keypoints are not consulted by the
matching path and are omitted). -/
structure RefCard where
  cardId : String
  descriptors : List Desc
deriving DecidableEq

/-- The `CardMatcher.__init__` parameters used by the matching path. -/
structure MatcherConfig where
  minMatchCount : ℕ
  scoreThreshold : ℤ
deriving DecidableEq

/-- The constructor defaults: `min_match_count: int = 20`,
`score_threshold: int = 45`. -/
def defaultMatcherConfig : MatcherConfig := { minMatchCount := 20, scoreThreshold := 45 }

/-- `CardMatcher._calculate_match_score(matches, min_count)`:
`0.0` when fewer than `min_count` matches, otherwise
`max(0, 100 - sum(m.distance for m in matches[:min_count]) / min_count)`. -/
def calculateMatchScore (ms : List DMatch) (minCount : ℕ) : ℚ :=
  if ms.length < minCount then 0
  else max 0 (100 - ((ms.take minCount).map (fun m => (m.distance : ℚ))).sum / (minCount : ℚ))

/-- The score `find_matches` computes for one reference card: cross-checked
matches, sorted ascending by distance, then `_calculate_match_score`. -/
def scoreAgainst (minCount : ℕ) (qds : List Desc) (card : RefCard) : ℚ :=
  calculateMatchScore (List.insertionSort distAsc (crossMatches qds card.descriptors)) minCount

/-- `min_match_count = min_match_count or self.min_match_count`
(utils.py:190): Python's `or` coalesces both `None` and the falsy `0` to the
instance default. -/
def effectiveMinMatchCount (arg : Option ℕ) (cfg : MatcherConfig) : ℕ :=
  match arg with
  | none => cfg.minMatchCount
  | some n => if n = 0 then cfg.minMatchCount else n

/-- `CardMatcher.find_matches(query_img, min_match_count)`.  The query image
enters only through its extracted descriptors, passed here as
`queryDescriptors` (`none` models OpenCV returning no descriptor matrix, the
`query_descriptors is None` early return).  Scores strictly above
`score_threshold` are collected in reference order, then sorted by descending
score. -/
def findMatches (cfg : MatcherConfig) (refs : List RefCard)
    (queryDescriptors : Option (List Desc)) (minArg : Option ℕ) : List (String × ℚ) :=
  let minCount := effectiveMinMatchCount minArg cfg
  match queryDescriptors with
  | none => []
  | some qds =>
    let matchesList := refs.filterMap (fun card =>
      let score := scoreAgainst minCount qds card
      if (cfg.scoreThreshold : ℚ) < score then some (card.cardId, score) else none)
    List.insertionSort scoreDesc matchesList

/-! ### Matcher lemmas -/

/-- `_calculate_match_score` never returns a negative value. -/
theorem calculateMatchScore_nonneg (ms : List DMatch) (minCount : ℕ) :
    0 ≤ calculateMatchScore ms minCount := by
  unfold calculateMatchScore
  split
  · exact le_refl 0
  · exact le_max_left 0 _

/-- `_calculate_match_score` never exceeds 100: the averaged Hamming distances
are non-negative. -/
theorem calculateMatchScore_le_100 (ms : List DMatch) (minCount : ℕ) :
    calculateMatchScore ms minCount ≤ 100 := by
  unfold calculateMatchScore
  split
  · norm_num
  · refine max_le (by norm_num) ?_
    have hs : 0 ≤ ((ms.take minCount).map (fun m => (m.distance : ℚ))).sum := by
      refine List.sum_nonneg ?_
      intro x hx
      obtain ⟨m, _, rfl⟩ := List.mem_map.mp hx
      exact_mod_cast Nat.zero_le m.distance
    have hdiv : 0 ≤ ((ms.take minCount).map (fun m => (m.distance : ℚ))).sum / (minCount : ℚ) :=
      div_nonneg hs (by exact_mod_cast Nat.zero_le minCount)
    linarith

/-- Anatomy of membership in `find_matches`' result: the pair comes from some
reference card, with the pipeline's score, and passed the
`score > self.score_threshold` filter. -/
theorem mem_findMatches {cfg : MatcherConfig} {refs : List RefCard}
    {q : Option (List Desc)} {marg : Option ℕ} {p : String × ℚ}
    (hp : p ∈ findMatches cfg refs q marg) :
    (cfg.scoreThreshold : ℚ) < p.2 ∧
    ∃ qds, q = some qds ∧ ∃ card ∈ refs,
      p = (card.cardId, scoreAgainst (effectiveMinMatchCount marg cfg) qds card) := by
  cases q with
  | none => simp [findMatches] at hp
  | some qds =>
    simp only [findMatches, List.mem_insertionSort, List.mem_filterMap] at hp
    obtain ⟨card, hcard, hif⟩ := hp
    by_cases h : (cfg.scoreThreshold : ℚ) < scoreAgainst (effectiveMinMatchCount marg cfg) qds card
    · rw [if_pos h] at hif
      cases hif
      exact ⟨h, qds, rfl, card, hcard, rfl⟩
    · rw [if_neg h] at hif
      cases hif

/-! ### Claim theorems for the matcher -/

/-- The score computed for one reference, written as the spec's
"average of the top-K matches": total distance of the first `k` matches
(after the ascending-distance sort) divided by how many matches were taken. -/
def specTopKAverageDistance (ms : List DMatch) (k : ℕ) : ℚ :=
  ((ms.take k).map (fun m => (m.distance : ℚ))).sum / (((ms.take k).length : ℕ) : ℚ)

/-- C1: for every query feature set and reference card, the match score equals
`max(0, 100 − average Hamming distance of the top K matches)` taken from the
cross-checked matches sorted by ascending distance, and a reference with fewer
than K matches scores exactly 0; K is `min_match_count`, whose constructor
default is 20. -/
theorem match_score_is_distance_policy :
    (∀ (qds : List Desc) (card : RefCard) (k : ℕ),
      scoreAgainst k qds card =
        if (List.insertionSort distAsc (crossMatches qds card.descriptors)).length < k then 0
        else max 0 (100 -
          specTopKAverageDistance
            (List.insertionSort distAsc (crossMatches qds card.descriptors)) k)) ∧
    defaultMatcherConfig.minMatchCount = 20 := by
  constructor
  · intro qds card k
    unfold scoreAgainst calculateMatchScore specTopKAverageDistance
    split
    · rfl
    · rename_i h
      have hk : k ≤ (List.insertionSort distAsc (crossMatches qds card.descriptors)).length :=
        le_of_not_lt h
      rw [List.length_take, Nat.min_eq_left hk]
  · rfl

/-- C2: the list returned by `find_matches` is sorted by non-increasing score:
whenever one pair precedes another, its score is at least the later one's. -/
theorem find_matches_sorted_descending (cfg : MatcherConfig) (refs : List RefCard)
    (q : Option (List Desc)) (marg : Option ℕ) :
    List.Pairwise (fun a b : String × ℚ => b.2 ≤ a.2) (findMatches cfg refs q marg) := by
  cases q with
  | none => simp [findMatches]
  | some qds =>
    simp only [findMatches]
    exact List.sorted_insertionSort scoreDesc _

/-- C5: `find_matches` returns the empty list (and raises nothing) both when
the query image yields no descriptors and when the reference index is empty. -/
theorem find_matches_empty_cases :
    (∀ (cfg : MatcherConfig) (refs : List RefCard) (marg : Option ℕ),
      findMatches cfg refs none marg = []) ∧
    (∀ (cfg : MatcherConfig) (q : Option (List Desc)) (marg : Option ℕ),
      findMatches cfg [] q marg = []) := by
  constructor
  · intro cfg refs marg
    rfl
  · intro cfg q marg
    cases q <;> rfl

/-- C9: every `(card_id, score)` pair returned by `find_matches` has a score
strictly above the configured `score_threshold` and at most 100; with a
non-negative threshold (the default is 45) a returned score is in particular
never 0 or negative. -/
theorem find_matches_scores_bounded (cfg : MatcherConfig) (refs : List RefCard)
    (q : Option (List Desc)) (marg : Option ℕ) (p : String × ℚ)
    (hth : 0 ≤ cfg.scoreThreshold) (hp : p ∈ findMatches cfg refs q marg) :
    (cfg.scoreThreshold : ℚ) < p.2 ∧ 0 < p.2 ∧ p.2 ≤ 100 := by
  obtain ⟨hlt, qds, hq, card, hcard, hpe⟩ := mem_findMatches hp
  have h0 : (0 : ℚ) ≤ (cfg.scoreThreshold : ℚ) := by exact_mod_cast hth
  refine ⟨hlt, lt_of_le_of_lt h0 hlt, ?_⟩
  rw [hpe]
  exact calculateMatchScore_le_100 _ _

/-- Witness for C9 at a concrete input: threshold 45, one reference card whose
single descriptor matches the query's exactly (score 100). -/
theorem find_matches_scores_bounded_witness :
    (((⟨1, 45⟩ : MatcherConfig).scoreThreshold : ℚ) < ("w9/card", (100 : ℚ)).2 ∧
      0 < ("w9/card", (100 : ℚ)).2 ∧ ("w9/card", (100 : ℚ)).2 ≤ 100) :=
  find_matches_scores_bounded ⟨1, 45⟩ [⟨"w9/card", [[true, true, false]]⟩]
    (some [[true, true, false]]) none ("w9/card", 100) (by decide)
    (by norm_num [findMatches, effectiveMinMatchCount, scoreAgainst, calculateMatchScore,
      crossMatches, bestMatch, hamming, List.insertionSort, List.orderedInsert,
      List.replicate, Option.some_ne_none])

/-- C10: passing `min_match_count = 0` to `find_matches` behaves identically to
omitting the argument: `min_match_count or self.min_match_count` coalesces the
falsy 0 to the instance default. -/
theorem min_match_count_zero_uses_default :
    (∀ (cfg : MatcherConfig) (refs : List RefCard) (q : Option (List Desc)),
      findMatches cfg refs q (some 0) = findMatches cfg refs q none) ∧
    (∀ cfg : MatcherConfig, effectiveMinMatchCount (some 0) cfg = cfg.minMatchCount) := by
  constructor
  · intro cfg refs q
    rfl
  · intro cfg
    rfl

/-- C3 counterexample: with `min_match_count = 1` and the default threshold 45,
a reference whose score is 44 — positive, but below the threshold — is absent
from the list `find_matches` returns: ranking does not retain below-threshold
candidates for a consumer to label. -/
theorem below_threshold_candidate_dropped :
    scoreAgainst 1 [List.replicate 56 false] ⟨"setA/001", [List.replicate 56 true]⟩ = 44 ∧
    (44 : ℚ) < 45 ∧
    findMatches ⟨1, 45⟩ [⟨"setA/001", [List.replicate 56 true]⟩]
      (some [List.replicate 56 false]) none = [] := by
  refine ⟨?_, by norm_num, ?_⟩ <;>
    norm_num [findMatches, effectiveMinMatchCount, scoreAgainst, calculateMatchScore,
      crossMatches, bestMatch, hamming, List.insertionSort, List.orderedInsert,
      List.replicate, Option.some_ne_none]

/-- C3 amended: `find_matches` itself drops every candidate whose score is at
or below `score_threshold`; each returned pair scores strictly above the
threshold, so a below-threshold candidate never reaches the consumer. -/
theorem find_matches_filters_by_threshold (cfg : MatcherConfig) (refs : List RefCard)
    (q : Option (List Desc)) (marg : Option ℕ) (p : String × ℚ)
    (hp : p ∈ findMatches cfg refs q marg) :
    (cfg.scoreThreshold : ℚ) < p.2 :=
  (mem_findMatches hp).1

/-- Witness for the amended C3 at a concrete input: threshold 10, a reference
scoring 99 is returned and indeed exceeds the threshold. -/
theorem find_matches_filters_by_threshold_witness :
    ((⟨1, 10⟩ : MatcherConfig).scoreThreshold : ℚ) < ("w3/card", (99 : ℚ)).2 :=
  find_matches_filters_by_threshold ⟨1, 10⟩ [⟨"w3/card", [[true, false]]⟩]
    (some [[true, true]]) none ("w3/card", 99)
    (by norm_num [findMatches, effectiveMinMatchCount, scoreAgainst, calculateMatchScore,
      crossMatches, bestMatch, hamming, List.insertionSort, List.orderedInsert,
      List.replicate, Option.some_ne_none])

/-! ### CVCardDetector (src/src/cv_detector.py)

`preprocess_image`/`cv2.findContours` produce contours; `cv2.contourArea`,
`cv2.minAreaRect`/`cv2.boxPoints` and the two `np.linalg.norm` calls yield, per
contour, its area, its rotated rectangle's four (integer) corner points and the
rectangle's two side lengths.  Those OpenCV geometry results are irrational in
general, so a contour is embedded as that computed data; the detector's own
arithmetic (the filters and the box conversion) is translated exactly. -/

/-- One external contour, as `find_rectangles` observes it: `area` is
`cv2.contourArea(cnt)`, `box` the `np.int0(cv2.boxPoints(rect))` corner list,
and `sideW`/`sideH` the two side lengths `np.linalg.norm(box[0]-box[1])` /
`np.linalg.norm(box[1]-box[2])`. -/
structure Contour where
  area : ℚ
  sideW : ℚ
  sideH : ℚ
  box : List (ℤ × ℤ)
deriving DecidableEq

/-- The `CVCardDetector.__init__` parameters. -/
structure DetectorConfig where
  minArea : ℚ
  maxArea : ℚ
  minAspectRatio : ℚ
  maxAspectRatio : ℚ
deriving DecidableEq

/-- `aspect_ratio = min(width, height) / max(width, height)`. -/
def aspectRatio (c : Contour) : ℚ := min c.sideW c.sideH / max c.sideW c.sideH

/-- The two `continue` filters of `find_rectangles`, as one boolean test:
a contour survives when neither `area < min_area or area > max_area` nor
`aspect_ratio < min_aspect_ratio or aspect_ratio > max_aspect_ratio` holds. -/
def passesFilters (cfg : DetectorConfig) (c : Contour) : Bool :=
  if c.area < cfg.minArea ∨ cfg.maxArea < c.area then false
  else if aspectRatio c < cfg.minAspectRatio ∨ cfg.maxAspectRatio < aspectRatio c then false
  else true

/-- `CVCardDetector.find_rectangles`: the rotated-rectangle corner lists of the
contours that pass both filters, in contour order. -/
def findRectangles (cfg : DetectorConfig) (contours : List Contour) : List (List (ℤ × ℤ)) :=
  (contours.filter (passesFilters cfg)).map Contour.box

/-- `CVCardDetector.convert_to_xyxy`: the axis-aligned bounding box
`(min x, min y, max x, max y)` of the corner points. -/
def convertToXyxy : List (ℤ × ℤ) → ℤ × ℤ × ℤ × ℤ
  | [] => (0, 0, 0, 0)
  | p :: ps =>
    (ps.foldl (fun m q => min m q.1) p.1,
     ps.foldl (fun m q => min m q.2) p.2,
     ps.foldl (fun m q => max m q.1) p.1,
     ps.foldl (fun m q => max m q.2) p.2)

/-- `CVCardDetector.detect`: every accepted rectangle, converted to an
axis-aligned box and paired with the fixed confidence `1.0`. -/
def detect (cfg : DetectorConfig) (contours : List Contour) : List ((ℤ × ℤ × ℤ × ℤ) × ℚ) :=
  (findRectangles cfg contours).map (fun box => (convertToXyxy box, 1))

/-- The spec's acceptance predicate, stated as the inclusive ranges
`area ∈ [min_area, max_area]` and `ratio ∈ [min_aspect, max_aspect]`. -/
def specQualifies (cfg : DetectorConfig) (c : Contour) : Prop :=
  cfg.minArea ≤ c.area ∧ c.area ≤ cfg.maxArea ∧
  cfg.minAspectRatio ≤ aspectRatio c ∧ aspectRatio c ≤ cfg.maxAspectRatio

instance (cfg : DetectorConfig) (c : Contour) : Decidable (specQualifies cfg c) :=
  inferInstanceAs (Decidable (_ ∧ _ ∧ _ ∧ _))

/-- The code's filter accepts exactly the spec's inclusive ranges. -/
theorem passesFilters_iff_specQualifies (cfg : DetectorConfig) (c : Contour) :
    passesFilters cfg c = true ↔ specQualifies cfg c := by
  unfold passesFilters specQualifies
  split
  · rename_i h
    simp only [Bool.false_eq_true, false_iff]
    intro ⟨h1, h2, _, _⟩
    rcases h with h | h
    · exact absurd h1 (not_le.mpr h)
    · exact absurd h2 (not_le.mpr h)
  · rename_i h
    split
    · rename_i h'
      simp only [Bool.false_eq_true, false_iff]
      intro ⟨_, _, h3, h4⟩
      rcases h' with h' | h'
      · exact absurd h3 (not_le.mpr h')
      · exact absurd h4 (not_le.mpr h')
    · rename_i h'
      push_neg at h h'
      simp only [true_iff]
      exact ⟨h.1, h.2, h'.1, h'.2⟩

/-- C6: for every frame (its list of external contours), `detect` emits exactly
one region per contour whose area lies in `[min_area, max_area]` and whose
rotated rectangle's short/long side ratio lies in `[min_aspect, max_aspect]`;
each region is the axis-aligned bounding box of that rectangle with confidence
exactly `1.0`, and a frame with no qualifying contour yields `[]`. -/
theorem detect_emits_qualifying_boxes (cfg : DetectorConfig) (contours : List Contour) :
    detect cfg contours =
      (contours.filter (fun c => decide (specQualifies cfg c))).map
        (fun c => (convertToXyxy c.box, (1 : ℚ))) := by
  unfold detect findRectangles
  rw [List.map_map]
  congr 1
  apply List.filter_congr
  intro c _
  rw [Bool.eq_iff_iff, passesFilters_iff_specQualifies cfg c, decide_eq_true_eq]

/-! ### Reference-card loading (src/src/utils.py, `_load_reference_cards`)

The directory tree is embedded as observed by the loader: `os.path.exists` on
the root, the `os.listdir` entries with their `os.path.isdir` status, each
file's extension test, whether `cv2.imread` decodes it, and the descriptors
`detectAndCompute` yields on the decoded image (`none` models a `None`
descriptor matrix). -/

/-- One file inside a set directory, as the loader observes it. -/
structure RefFile where
  stem : String
  hasImageExt : Bool
  decodes : Bool
  descriptors : Option (List Desc)

/-- One entry of the root directory. -/
structure RefEntry where
  setName : String
  isDir : Bool
  files : List RefFile

/-- The reference directory tree as the loader observes it. -/
structure FileSystem where
  rootExists : Bool
  entries : List RefEntry

/-- Python-dict insertion for `self.reference_cards[card_id] = ...`: a
colliding identity replaces the earlier value in place, otherwise the card is
appended (dicts preserve insertion order). -/
def dictInsert (idx : List RefCard) (c : RefCard) : List RefCard :=
  if idx.any (fun r => r.cardId == c.cardId) then
    idx.map (fun r => if r.cardId == c.cardId then c else r)
  else idx ++ [c]

/-- `CardMatcher._load_single_card`: skip files that fail to decode or yield no
descriptors (logged, not raised), otherwise store under `"{set}/{name}"`. -/
def loadSingleCard (idx : List RefCard) (setName : String) (f : RefFile) : List RefCard :=
  if f.decodes = false then idx
  else
    match f.descriptors with
    | none => idx
    | some ds => dictInsert idx ⟨setName ++ "/" ++ f.stem, ds⟩

/-- `CardMatcher._load_reference_cards`: when the root directory does not
exist the method logs an error and returns — no exception reaches the caller —
leaving `reference_cards` empty; otherwise it walks one level of
subdirectories and loads every image file. -/
def loadReferenceCards (fs : FileSystem) : List RefCard :=
  if fs.rootExists = false then []
  else
    fs.entries.foldl
      (fun idx e =>
        if e.isDir = false then idx
        else e.files.foldl
          (fun idx2 f => if f.hasImageExt = false then idx2 else loadSingleCard idx2 e.setName f)
          idx)
      []

/-- The error the spec's taxonomy assigns to a missing reference root. -/
inductive ConfigError where
  | rootMissing
deriving DecidableEq

/-- Building the reference index, with the exception channel a Python caller
would observe: the constructor path raises nothing, so the result is always
`Except.ok` of whatever `_load_reference_cards` stored. -/
def buildReferenceIndex (fs : FileSystem) : Except ConfigError (List RefCard) :=
  Except.ok (loadReferenceCards fs)

/-- C4 counterexample: with the reference root absent, the build completes
normally with an empty index — no `ConfigError` (nor any other error) reaches
the caller, contradicting the claimed fatal failure. -/
theorem missing_root_build_succeeds :
    buildReferenceIndex ⟨false, []⟩ = Except.ok [] ∧
    ∀ e : ConfigError, buildReferenceIndex ⟨false, []⟩ ≠ Except.error e := by
  constructor
  · rfl
  · intro e h
    cases h

/-- C4 amended: a missing reference root is logged and yields an empty index
(never an error value), an existing-but-empty root also yields an empty index,
and every subsequent match against either index returns the empty list. -/
theorem missing_root_yields_empty_index (fs : FileSystem) (h : fs.rootExists = false)
    (cfg : MatcherConfig) (q : Option (List Desc)) (marg : Option ℕ) :
    buildReferenceIndex fs = Except.ok [] ∧
    buildReferenceIndex ⟨true, []⟩ = Except.ok [] ∧
    findMatches cfg (loadReferenceCards fs) q marg = [] := by
  have hload : loadReferenceCards fs = [] := by
    unfold loadReferenceCards
    rw [h]
    rfl
  refine ⟨?_, rfl, ?_⟩
  · unfold buildReferenceIndex
    rw [hload]
  · rw [hload]
    cases q <;> rfl

/-- Witness for the amended C4 at a concrete tree: a missing root whose
(unreachable) entry list is nonempty, queried with one descriptor. -/
theorem missing_root_yields_empty_index_witness :
    buildReferenceIndex ⟨false, [⟨"hSD04", true, []⟩]⟩ = Except.ok [] ∧
    buildReferenceIndex ⟨true, []⟩ = Except.ok [] ∧
    findMatches defaultMatcherConfig (loadReferenceCards ⟨false, [⟨"hSD04", true, []⟩]⟩)
      (some [[true, false]]) none = [] :=
  missing_root_yields_empty_index ⟨false, [⟨"hSD04", true, []⟩]⟩ rfl
    defaultMatcherConfig (some [[true, false]]) none

/-! ### Live pipeline hand-off (src/src/camera_analyzer.py)

`CameraAnalyzer.__init__` creates `self.processing_queue = Queue(maxsize=1)`;
`process_frame` submits each non-empty detection batch with `put_nowait` in a
`try`/`except`.  A `queue.Queue` is embedded as its item list plus capacity;
`put_nowait` is a total function (it never waits), returning the new state and
whether the item was accepted (`False` models the caught `queue.Full`). -/

/-- A `queue.Queue(maxsize=n)` as its buffered items and capacity. -/
structure BoundedQueue (α : Type) where
  items : List α
  maxsize : ℕ

/-- `Queue.put_nowait`: on a full queue the item is rejected (the `Full`
exception) and the queue is unchanged; otherwise it is appended. -/
def putNowait {α : Type} (q : BoundedQueue α) (x : α) : BoundedQueue α × Bool :=
  if q.maxsize ≤ q.items.length then (q, false)
  else ({ q with items := q.items ++ [x] }, true)

/-- The fresh `processing_queue`: `Queue(maxsize=1)`, a single-slot channel. -/
def processingQueueInit (α : Type) : BoundedQueue α := ⟨[], 1⟩

/-- The submission step of `CameraAnalyzer.process_frame` (lines 88–94): an
empty batch is not submitted at all; a non-empty batch is offered with
`put_nowait`, and a `Full` queue leaves it dropped. -/
def processFrameSubmit {α : Type} (q : BoundedQueue α) (batch : α)
    (batchNonEmpty : Bool) : BoundedQueue α × Bool :=
  if batchNonEmpty = false then (q, false)
  else putNowait q batch

/-- C7: whenever the single-slot queue already holds a batch, the newly
detected batch is dropped: the queue state after the submit step is unchanged
(nothing is queued behind the occupant) and the submission reports failure.
`processFrameSubmit` being a total function is the non-blocking discipline —
the capture activity never waits on the slot. -/
theorem submit_drops_batch_when_slot_occupied {α : Type} (q : BoundedQueue α)
    (batch : α) (nonEmpty : Bool) (hsize : q.maxsize = 1) (hocc : q.items ≠ []) :
    processFrameSubmit q batch nonEmpty = (q, false) := by
  have hlen : q.maxsize ≤ q.items.length := by
    rw [hsize]
    exact Nat.one_le_iff_ne_zero.mpr (fun h => hocc (List.eq_nil_of_length_eq_zero h))
  unfold processFrameSubmit putNowait
  cases nonEmpty
  · rfl
  · simp [hlen]

/-- Witness for C7 at a concrete state: the slot holds one earlier batch, the
new batch `[7]` is dropped and the queue keeps exactly its previous content. -/
theorem submit_drops_batch_when_slot_occupied_witness :
    processFrameSubmit (⟨[[3]], 1⟩ : BoundedQueue (List ℕ)) [7] true = (⟨[[3]], 1⟩, false) :=
  submit_drops_batch_when_slot_occupied ⟨[[3]], 1⟩ [7] true rfl (by decide)

/-! ### Capture-loop shutdown (src/src/camera_analyzer.py, `run_camera`)

`run_camera` wraps its `while True` loop in `try`/`finally`; the `finally`
block runs `self.is_running = False`, `matching_thread.join(timeout=1.0)`,
`cap.release()`, `cv2.destroyAllWindows()` in that order on every way out of
the loop.  The loop is embedded as a trace of the externally visible actions,
driven by a list of per-iteration events (what `cap.read` and `cv2.waitKey`
yield, or an exception inside the body); Python's `try`/`finally` semantics is
the unconditional appending of the cleanup trace. -/

/-- What `cv2.waitKey` reports for one displayed frame. -/
inductive Key where
  | q
  | s
  | other
deriving DecidableEq

/-- One iteration's outcome: a frame read successfully followed by a key press,
a failed read (`ret` false), or an exception raised inside the loop body. -/
inductive FrameEvent where
  | frame (k : Key)
  | readFail
  | bodyError
deriving DecidableEq

/-- The externally visible actions of a capture session. -/
inductive CamAction where
  | readFrame
  | processFrame
  | showFrame
  | saveFrame
  | setRunningFalse
  | joinWorker (timeoutSeconds : ℚ)
  | releaseDevice
  | destroyAllWindows
deriving DecidableEq

/-- The trace of the `while True` loop body (camera_analyzer.py lines
175–195): read; on read failure break; otherwise process and show the frame,
then `q` breaks, `s` saves and continues, any other key continues.  A
`bodyError` event aborts the loop with an exception after the read. -/
def captureLoopTrace : List FrameEvent → List CamAction
  | [] => []
  | FrameEvent.readFail :: _ => [CamAction.readFrame]
  | FrameEvent.bodyError :: _ => [CamAction.readFrame]
  | FrameEvent.frame k :: rest =>
    CamAction.readFrame :: CamAction.processFrame :: CamAction.showFrame ::
      (match k with
       | Key.q => []
       | Key.s => CamAction.saveFrame :: captureLoopTrace rest
       | Key.other => captureLoopTrace rest)

/-- The `finally` block of `run_camera`: signal the worker to stop, join it
with a 1.0-second timeout, release the device, destroy the windows. -/
def shutdownSequence : List CamAction :=
  [CamAction.setRunningFalse, CamAction.joinWorker 1, CamAction.releaseDevice,
   CamAction.destroyAllWindows]

/-- `run_camera` after the device opened: the loop trace, then — by
`try`/`finally` — the shutdown sequence, whatever ended the loop. -/
def runCameraTrace (events : List FrameEvent) : List CamAction :=
  captureLoopTrace events ++ shutdownSequence

/-- C8: on every exit path of the capture loop — user stop (`q`), a
mid-session read failure, or an abnormal termination of the body — the session
trace ends with the worker stop signal, a bounded-timeout join (1.0 s), and the
unconditional device release (then window teardown), in that order. -/
theorem camera_shutdown_on_every_exit (events : List FrameEvent) :
    ∃ body, runCameraTrace events =
      body ++ [CamAction.setRunningFalse, CamAction.joinWorker 1,
        CamAction.releaseDevice, CamAction.destroyAllWindows] :=
  ⟨captureLoopTrace events, rfl⟩

end CardIdentifier
